import Mathlib

/-!
Shallow embedding of the OpenGL_CS-330 coursework renderer
(`SceneManager.cpp` and `ViewManager.cpp`) and proofs about the
behaviour described in its specification.

Modelling conventions:
* `float` arithmetic on scene parameters is embedded as exact rational
  (`ℚ`) arithmetic; matrices built from trigonometric functions live over `ℝ`.
* OpenGL, GLM, GLFW and stb_image are external collaborators; the spec
  (section 6) only assumes their contracts, so they are modelled by small
  state records / parameters (`GLState`, decode functions, key states).
* `std::cout` logging has no observable effect on program state and is
  not modelled.
-/

namespace CS330

/-- Three-component vector of exact rationals, standing for `glm::vec3`. -/
abbrev Vec3 := ℚ × ℚ × ℚ

/-- Texture registry entry: `{ GLuint ID; std::string tag; }`
(the `TEXTURE_INFO` slots of `m_textureIDs`). -/
structure TextureEntry where
  ID : Nat
  tag : String
deriving DecidableEq

/-- Material entry `OBJECT_MATERIAL` as pushed onto `m_objectMaterials`. -/
structure ObjectMaterial where
  ambientColor : Vec3
  ambientStrength : ℚ
  diffuseColor : Vec3
  specularColor : Vec3
  shininess : ℚ
  tag : String
deriving DecidableEq

/-- Result of a successful `stbi_load` call: width, height and the number
of color channels of the decoded image.  Modelled from the spec: the
image-decoding collaborator returns a raw pixel buffer plus dimensions and
channel count; only the metadata is observable to the registry logic. -/
structure ImageData where
  width : Nat
  height : Nat
  colorChannels : Nat
deriving DecidableEq

/-- Modelled from the spec: the slice of OpenGL driver state the two files
interact with — the texture-name generator behind `glGenTextures` and the
per-unit bindings made by `glActiveTexture`/`glBindTexture`. -/
structure GLState where
  nextTextureID : Nat
  textureUnits : Nat → Nat

/-- Modelled from the spec: `glGenTextures(1, &id)` hands out a fresh,
previously unused texture name. -/
def glGenTextures (gl : GLState) : Nat × GLState :=
  (gl.nextTextureID, { gl with nextTextureID := gl.nextTextureID + 1 })

/-- 4×4 real matrix, standing for `glm::mat4`. -/
abbrev Mat4 := Matrix (Fin 4) (Fin 4) ℝ

/-- `glm::radians`: degree-to-radian conversion. -/
noncomputable def glmRadians (d : ℝ) : ℝ := d * Real.pi / 180

/-- Modelled from the spec: `glm::scale(v)` (GLM collaborator), the
homogeneous scaling matrix. -/
noncomputable def glmScaleMat (v : Vec3) : Mat4 :=
  !![(v.1 : ℝ), 0, 0, 0;
     0, (v.2.1 : ℝ), 0, 0;
     0, 0, (v.2.2 : ℝ), 0;
     0, 0, 0, 1]

/-- Modelled from the spec: `glm::rotate(θ, vec3(1,0,0))`, rotation about
the X axis by `θ` radians. -/
noncomputable def glmRotateXMat (θ : ℝ) : Mat4 :=
  !![1, 0, 0, 0;
     0, Real.cos θ, -(Real.sin θ), 0;
     0, Real.sin θ, Real.cos θ, 0;
     0, 0, 0, 1]

/-- Modelled from the spec: `glm::rotate(θ, vec3(0,1,0))`, rotation about
the Y axis by `θ` radians. -/
noncomputable def glmRotateYMat (θ : ℝ) : Mat4 :=
  !![Real.cos θ, 0, Real.sin θ, 0;
     0, 1, 0, 0;
     -(Real.sin θ), 0, Real.cos θ, 0;
     0, 0, 0, 1]

/-- Modelled from the spec: `glm::rotate(θ, vec3(0,0,1))`, rotation about
the Z axis by `θ` radians. -/
noncomputable def glmRotateZMat (θ : ℝ) : Mat4 :=
  !![Real.cos θ, -(Real.sin θ), 0, 0;
     Real.sin θ, Real.cos θ, 0, 0;
     0, 0, 1, 0;
     0, 0, 0, 1]

/-- Modelled from the spec: `glm::translate(v)`, the homogeneous
translation matrix. -/
noncomputable def glmTranslateMat (v : Vec3) : Mat4 :=
  !![1, 0, 0, (v.1 : ℝ);
     0, 1, 0, (v.2.1 : ℝ);
     0, 0, 1, (v.2.2 : ℝ);
     0, 0, 0, 1]

/-- The uniform store of the external `ShaderManager` collaborator, one
field per uniform name the two files write.  `none` means the uniform has
not been set yet. -/
structure ShaderState where
  model : Option Mat4 := none
  objectColor : Option (ℚ × ℚ × ℚ × ℚ) := none
  objectTexture : Option Int := none
  bUseTexture : Option Bool := none
  uvScale : Option (ℚ × ℚ) := none
  materialAmbientColor : Option Vec3 := none
  materialAmbientStrength : Option ℚ := none
  materialDiffuseColor : Option Vec3 := none
  materialSpecularColor : Option Vec3 := none
  materialShininess : Option ℚ := none
  bUseLighting : Option Bool := none

/-- The `SceneManager` instance state: the shader pointer (possibly NULL),
the fixed-capacity texture array `m_textureIDs` with its fill counter
`m_loadedTextures`, the material vector `m_objectMaterials`, and the
OpenGL driver state the methods touch. -/
structure SceneState where
  shader : Option ShaderState
  textureIDs : Nat → TextureEntry
  loadedTextures : Nat
  objectMaterials : List ObjectMaterial
  gl : GLState

/-- `SceneManager::CreateGLTexture`, with the `stbi_load` result supplied
as the `image` parameter.  On decode failure it returns `false` and
changes nothing; on a 3- or 4-channel image it generates a texture name,
registers `(ID, tag)` at index `m_loadedTextures` and increments the
counter; on any other channel count it returns `false` after consuming a
texture name but without touching the registry. -/
def createGLTexture (image : Option ImageData) (tag : String)
    (st : SceneState) : Bool × SceneState :=
  match image with
  | none => (false, st)
  | some img =>
    let gen := glGenTextures st.gl
    if img.colorChannels = 3 ∨ img.colorChannels = 4 then
      (true,
        { st with
          gl := gen.2
          textureIDs :=
            Function.update st.textureIDs st.loadedTextures
              { ID := gen.1, tag := tag }
          loadedTextures := st.loadedTextures + 1 })
    else
      (false, { st with gl := gen.2 })

/-- The loop body of `SceneManager::BindGLTextures`: for each `i` below
the counter, bind texture `m_textureIDs[i].ID` to texture unit `i`. -/
def bindTexturesLoop (n : Nat) (t : Nat → TextureEntry) (gl : GLState) :
    GLState :=
  (List.range n).foldl
    (fun g i => { g with textureUnits := Function.update g.textureUnits i (t i).ID })
    gl

/-- `SceneManager::BindGLTextures`. -/
def bindGLTextures (st : SceneState) : SceneState :=
  { st with gl := bindTexturesLoop st.loadedTextures st.textureIDs st.gl }

/-- The loop body of `SceneManager::DestroyGLTextures`: for each `i` below
the counter, `glGenTextures(1, &m_textureIDs[i].ID)` — the stored ID is
overwritten with a freshly generated texture name; tags are untouched. -/
def destroyTexturesLoop (n : Nat) (t : Nat → TextureEntry) (gl : GLState) :
    (Nat → TextureEntry) × GLState :=
  (List.range n).foldl
    (fun acc i =>
      let gen := glGenTextures acc.2
      (Function.update acc.1 i { acc.1 i with ID := gen.1 }, gen.2))
    (t, gl)

/-- `SceneManager::DestroyGLTextures`. -/
def destroyGLTextures (st : SceneState) : SceneState :=
  let r := destroyTexturesLoop st.loadedTextures st.textureIDs st.gl
  { st with textureIDs := r.1, gl := r.2 }

/-- The while-loop shared by `FindTextureID` and `FindTextureSlot`:
scan indices `0, 1, …, m_loadedTextures - 1` in order and stop at the
first entry whose tag compares equal. -/
def findFirstTextureIndex (st : SceneState) (tag : String) : Option Nat :=
  (List.range st.loadedTextures).find? (fun i => (st.textureIDs i).tag == tag)

/-- `SceneManager::FindTextureID`: the ID of the first matching entry,
`-1` when the scan finds none. -/
def findTextureID (st : SceneState) (tag : String) : Int :=
  match findFirstTextureIndex st tag with
  | some i => ((st.textureIDs i).ID : Int)
  | none => -1

/-- `SceneManager::FindTextureSlot`: the index of the first matching
entry, `-1` when the scan finds none. -/
def findTextureSlot (st : SceneState) (tag : String) : Int :=
  match findFirstTextureIndex st tag with
  | some i => (i : Int)
  | none => -1

/-- `SceneManager::FindMaterial`.  The in-out reference parameter becomes
the `material` argument and the returned second component.  Faithful to
the source: when the list is empty the function returns `false`; when a
matching entry is found its five value fields (not the tag) are copied;
after the loop the function returns `true` unconditionally — also when no
entry matched, in which case the out-parameter keeps its previous
(uninitialized, at the call site in `SetShaderMaterial`) contents. -/
def findMaterial (tag : String) (material : ObjectMaterial)
    (st : SceneState) : Bool × ObjectMaterial :=
  if st.objectMaterials.length = 0 then
    (false, material)
  else
    match st.objectMaterials.find? (fun m => m.tag == tag) with
    | some m =>
      (true,
        { material with
          ambientColor := m.ambientColor
          ambientStrength := m.ambientStrength
          diffuseColor := m.diffuseColor
          specularColor := m.specularColor
          shininess := m.shininess })
    | none => (true, material)

/-- The `modelView` matrix computed by `SceneManager::SetTransformations`:
`translation * rotationX * rotationY * rotationZ * scale`, with the three
angles converted from degrees to radians. -/
noncomputable def setTransformationsMatrix (scaleXYZ : Vec3)
    (xRotationDegrees yRotationDegrees zRotationDegrees : ℚ)
    (positionXYZ : Vec3) : Mat4 :=
  let scale := glmScaleMat scaleXYZ
  let rotationX := glmRotateXMat (glmRadians (xRotationDegrees : ℝ))
  let rotationY := glmRotateYMat (glmRadians (yRotationDegrees : ℝ))
  let rotationZ := glmRotateZMat (glmRadians (zRotationDegrees : ℝ))
  let translation := glmTranslateMat positionXYZ
  translation * rotationX * rotationY * rotationZ * scale

/-- `SceneManager::SetTransformations`: store the composed model matrix in
the shader uniform `"model"` (guarded by the NULL check on the shader). -/
noncomputable def setTransformations (scaleXYZ : Vec3)
    (xRotationDegrees yRotationDegrees zRotationDegrees : ℚ)
    (positionXYZ : Vec3) (st : SceneState) : SceneState :=
  match st.shader with
  | none => st
  | some sh =>
    { st with
      shader := some
        { sh with
          model := some (setTransformationsMatrix scaleXYZ
            xRotationDegrees yRotationDegrees zRotationDegrees positionXYZ) } }

/-- `SceneManager::SetShaderColor`: set uniform `bUseTexture` to false and
uniform `objectColor` to the given RGBA value. -/
def setShaderColor (r g b a : ℚ) (st : SceneState) : SceneState :=
  match st.shader with
  | none => st
  | some sh =>
    { st with
      shader := some
        { sh with bUseTexture := some false, objectColor := some (r, g, b, a) } }

/-- `SceneManager::SetShaderTexture`: set uniform `bUseTexture` to true
and pass the result of `FindTextureSlot` to the sampler uniform
`objectTexture`. -/
def setShaderTexture (textureTag : String) (st : SceneState) : SceneState :=
  match st.shader with
  | none => st
  | some sh =>
    { st with
      shader := some
        { sh with
          bUseTexture := some true
          objectTexture := some (findTextureSlot st textureTag) } }

/-- `SceneManager::SetTextureUVScale`. -/
def setTextureUVScale (u v : ℚ) (st : SceneState) : SceneState :=
  match st.shader with
  | none => st
  | some sh => { st with shader := some { sh with uvScale := some (u, v) } }

/-- Stands for the indeterminate contents of the stack-allocated
`OBJECT_MATERIAL material;` local in `SetShaderMaterial` before
`FindMaterial` writes to it. -/
def uninitializedMaterial : ObjectMaterial :=
  { ambientColor := (0, 0, 0)
    ambientStrength := 0
    diffuseColor := (0, 0, 0)
    specularColor := (0, 0, 0)
    shininess := 0
    tag := "" }

/-- `SceneManager::SetShaderMaterial`: when the material list is non-empty,
look the tag up and, if the lookup reports success, copy the five material
uniforms into the shader. -/
def setShaderMaterial (materialTag : String) (st : SceneState) : SceneState :=
  if 0 < st.objectMaterials.length then
    let r := findMaterial materialTag uninitializedMaterial st
    if r.1 then
      match st.shader with
      | none => st
      | some sh =>
        { st with
          shader := some
            { sh with
              materialAmbientColor := some r.2.ambientColor
              materialAmbientStrength := some r.2.ambientStrength
              materialDiffuseColor := some r.2.diffuseColor
              materialSpecularColor := some r.2.specularColor
              materialShininess := some r.2.shininess } }
    else st
  else st

/-- The `(filename, tag)` pairs passed to `CreateGLTexture` by
`SceneManager::LoadSceneTextures`, in source order. -/
def sceneTextureFiles : List (String × String) :=
  [("../../Utilities/textures/pavers.jpg", "floor"),
   ("../../Utilities/textures/dirty.jpg", "floor2"),
   ("../../Utilities/textures/rusticwood.jpg", "plank"),
   ("../../Utilities/textures/stainless.jpg", "desk"),
   ("../../Utilities/textures/slimBrick.jpg", "bDrop"),
   ("../../Utilities/textures/book011.jpg", "Book5"),
   ("../../Utilities/textures/book022.jpg", "Books"),
   ("../../Utilities/textures/plastic.jpg", "plastic"),
   ("../../Utilities/textures/Mons2.jpg", "screen"),
   ("../../Utilities/textures/rusticwood.jpg", "wood"),
   ("../../Utilities/textures/kb1.jpg", "KB1"),
   ("../../Utilities/textures/tuckersoft.jpg", "poster")]

/-- `SceneManager::LoadSceneTextures`, with the image decoder supplied as
the `decode` parameter.  Each call's boolean result is assigned to the
local `bReturn`, which is never read: only the state component of each
call flows into the next, and `BindGLTextures` runs at the end. -/
def loadSceneTextures (decode : String → Option ImageData)
    (st : SceneState) : SceneState :=
  bindGLTextures
    (sceneTextureFiles.foldl
      (fun s file => (createGLTexture (decode file.1) file.2 s).2) st)

/-- `SceneManager::DefineObjectMaterials`: push the six hardcoded
materials, in source order. -/
def defineObjectMaterials (st : SceneState) : SceneState :=
  { st with
    objectMaterials := st.objectMaterials ++
      [{ ambientColor := (0.2, 0.2, 0.1), ambientStrength := 0.4,
         diffuseColor := (0.3, 0.3, 0.2), specularColor := (0.6, 0.5, 0.4),
         shininess := 22, tag := "gold" },
       { ambientColor := (0.2, 0.2, 0.2), ambientStrength := 0.2,
         diffuseColor := (0.5, 0.5, 0.5), specularColor := (0.4, 0.4, 0.4),
         shininess := 0.5, tag := "cement" },
       { ambientColor := (0.4, 0.3, 0.1), ambientStrength := 0.2,
         diffuseColor := (0.3, 0.2, 0.1), specularColor := (0.1, 0.1, 0.1),
         shininess := 0.5, tag := "wood" },
       { ambientColor := (0.2, 0.3, 0.4), ambientStrength := 0.3,
         diffuseColor := (0.3, 0.2, 0.1), specularColor := (0.4, 0.5, 0.6),
         shininess := 25, tag := "tile" },
       { ambientColor := (0.4, 0.4, 0.4), ambientStrength := 0.3,
         diffuseColor := (0.4, 0.4, 0.5), specularColor := (0.6, 0.6, 0.6),
         shininess := 85, tag := "glass" },
       { ambientColor := (0.4, 0.3, 0.1), ambientStrength := 0.2,
         diffuseColor := (0.3, 0.2, 0.1), specularColor := (0.4, 0.5, 0.6),
         shininess := 0.5, tag := "clay" }] }

/-- The primitive meshes `RenderScene` draws. -/
inductive MeshKind where
  | plane
  | box
  | cylinder
  | torus
deriving DecidableEq

/-- One call issued by `SceneManager::RenderScene`: a transformation, a
color, a texture binding, a material binding, or a draw of a primitive
mesh. -/
inductive RenderCall where
  | transform (scaleXYZ : Vec3) (xRot yRot zRot : ℚ) (positionXYZ : Vec3)
  | color (r g b a : ℚ)
  | texture (tag : String)
  | material (tag : String)
  | draw (mesh : MeshKind)
deriving DecidableEq

/-- Apply one `RenderScene` call to the scene state.  A draw call samples
the current shader state and GPU state but changes neither registry. -/
noncomputable def applyRenderCall (c : RenderCall) (st : SceneState) : SceneState :=
  match c with
  | .transform s xr yr zr p => setTransformations s xr yr zr p st
  | .color r g b a => setShaderColor r g b a st
  | .texture tag => setShaderTexture tag st
  | .material tag => setShaderMaterial tag st
  | .draw _ => st

/-- The mutable locals of the book-generator loop in `RenderScene`:
`yRot`, `yPos`, `xPos`, `xScale`, `zScale`. -/
structure BookState where
  yRot : ℚ
  yPos : ℚ
  xPos : ℚ
  xScale : ℚ
  zScale : ℚ
deriving DecidableEq

/-- Initial values of the book-generator locals:
`yRot = 10, yPos = 2.8, xPos = -2.5, xScale = 0.7, zScale = 0.9`. -/
def bookInit : BookState :=
  { yRot := 10, yPos := 2.8, xPos := -2.5, xScale := 0.7, zScale := 0.9 }

/-- The parameters of one book draw: the arguments of the iteration's
`SetTransformations`, `SetShaderTexture` and `SetShaderMaterial` calls. -/
structure BookDraw where
  scaleXYZ : Vec3
  rotationXYZ : Vec3
  positionXYZ : Vec3
  texture : String
  material : String
deriving DecidableEq

/-- One iteration of the book-generator loop in `RenderScene` at index
`i`: draw a box with the current locals (texture `"Book5"` only at
`i = 4`, material `"wood"` at even `i` and `"clay"` at odd `i`), then
raise `yPos` by `0.10` and adjust rotation and scales by the
even/odd ternary operators. -/
def bookStep (b : BookState) (i : Nat) : BookDraw × BookState :=
  ({ scaleXYZ := (b.xScale, 0.1, b.zScale)
     rotationXYZ := (0, b.yRot, 0)
     positionXYZ := (b.xPos, b.yPos, -1.2)
     texture := if i = 4 then "Book5" else "Books"
     material := if i % 2 = 0 then "wood" else "clay" },
   { b with
     yPos := b.yPos + 0.10
     yRot := if i % 2 = 0 then b.yRot + 4.23 else b.yRot - 1.03
     xScale := if i % 2 = 0 then b.xScale + 0.13 else b.xScale - 0.15
     zScale := if i % 2 = 0 then b.zScale + 0.12 else b.zScale - 0.10 })

/-- The book-generator loop `for (int i = 0; i <= 4; i++)`: the list of
draws it performs together with the final loop state. -/
def bookLoop : List BookDraw × BookState :=
  (List.range 5).foldl
    (fun acc i =>
      let r := bookStep acc.2 i
      (acc.1 ++ [r.1], r.2))
    ([], bookInit)

/-- The five book draws generated by the loop. -/
def bookDraws : List BookDraw := bookLoop.1

/-- The four `RenderScene` calls one book-loop iteration issues. -/
def bookDrawCalls (d : BookDraw) : List RenderCall :=
  [.transform d.scaleXYZ d.rotationXYZ.1 d.rotationXYZ.2.1 d.rotationXYZ.2.2
     d.positionXYZ,
   .texture d.texture, .material d.material, .draw .box]

/-- The complete call script of `SceneManager::RenderScene`, in source
order: floor, floor2, backdrop, poster (its material call is commented
out in the source), table top, leg A, the two-iteration leg-detail torus
loop, leg B, the five-iteration book loop, the monitor components, the
keyboard drawer and keyboard, and the light fixture. -/
def renderSceneCalls : List RenderCall :=
  [.transform (18, 1, 7) 0 0 0 (0, -0.2, -2.7),
   .color 0.1 0.5 1 1, .texture "wood", .material "cement", .draw .plane,
   .transform (5.5, 1, 3) 0 0 0 (0.5, 0, -1.5),
   .color 0.1 0.5 1 1, .texture "floor", .material "cement", .draw .plane,
   .transform (20, 10.2, 8.4) 90 0 0 (0, 7, -10),
   .color 0.2 1 1 1, .texture "bDrop", .material "cement", .draw .plane,
   .transform (5, 6.2, 0.2) 0 0 0 (-10, 6, -10),
   .color 0.2 1 1 1, .texture "poster", .draw .box,
   .transform (8, 0.4, 3) 0 0 0 (0.5, 2.5, -2),
   .color 0.5 1 1 1, .texture "wood", .material "cement", .draw .box,
   .transform (0.5, 2.5, 2.4) 0 0 0 (-3, 1, -2),
   .color 0.2 1 1 1, .texture "plank", .material "wood", .draw .box,
   .transform (0.5, 0.5, 0.8) 0 90 0 (-3.18, 1.3, -2),
   .color 0.2 1 1 1, .texture "screen", .material "glass", .draw .torus,
   .transform (0.5, 0.5, 0.8) 0 90 0 (4.18, 1.3, -2),
   .color 0.2 1 1 1, .texture "screen", .material "glass", .draw .torus,
   .transform (0.5, 2.9, 2.4) 0 0 0 (4, 1, -2),
   .color 0.2 1 1 1, .texture "plank", .material "wood", .draw .box] ++
  (bookDraws.map bookDrawCalls).flatten ++
  [.transform (0.8, 0.1, 0.5) 0 0 0 (0.5, 2.7, -2.2),
   .color 0.5 1 1 1, .texture "plastic", .material "glass", .draw .cylinder,
   .transform (0.3, 2.5, 0.1) 0 0 0 (0.5, 3.9, -2.2),
   .color 0.5 1 1 1, .texture "plastic", .material "glass", .draw .box,
   .transform (0.7, 0.7, 0.09) 0 0 0 (0.5, 5, -2.09),
   .color 0.5 1 1 1, .texture "plastic", .material "wood", .draw .box,
   .transform (4, 2.5, 0.20) 0 0 0 (0.5, 5, -2),
   .color 0.5 1 1 1, .texture "plastic", .material "cement", .draw .box,
   .transform (3.8, 2.3, 0.08) 0 0 0 (0.5, 5, -1.9),
   .color 0.5 1 1 1, .texture "screen", .material "glass", .draw .box,
   .transform (4.3, 0.1, 1) 22 0 0 (0.5, 2.2, -0.1),
   .color 0.5 1 1 1, .texture "wood", .material "wood", .draw .box,
   .transform (3.2, 0.1, 0.8) 22 0 0 (0.5, 2.4, -0.18),
   .color 0.5 1 1 1, .texture "KB1", .material "glass", .draw .box,
   .transform (1, 0.5, 0.7) 0 0 0 (-10, 10.5, -9.5),
   .color 0.5 1 1 1, .texture "plastic", .material "glass", .draw .box]

/-- `SceneManager::RenderScene`: issue the whole call script. -/
noncomputable def renderScene (st : SceneState) : SceneState :=
  renderSceneCalls.foldl (fun s c => applyRenderCall c s) st

/-- The camera state the view manager mutates: position, front and up
vectors and the field-of-view `Zoom`. -/
structure CameraState where
  position : Vec3
  front : Vec3
  up : Vec3
  zoom : ℚ
deriving DecidableEq

/-- The movement directions of the external `Camera::ProcessKeyboard`. -/
inductive CameraMovement where
  | forward
  | backward
  | leftward
  | rightward
  | upward
  | downward
deriving DecidableEq

/-- The abstract contract of the external `Camera::ProcessKeyboard`
collaborator: a movement direction and a velocity update the camera. -/
abbrev CameraMoveFn := CameraMovement → ℚ → CameraState → CameraState

/-- Which of the keys read by `ProcessKeyboardEvents` are currently
pressed. -/
structure KeyState where
  escape : Bool := false
  w : Bool := false
  s : Bool := false
  a : Bool := false
  d : Bool := false
  q : Bool := false
  e : Bool := false
  p : Bool := false
  o : Bool := false
deriving DecidableEq

/-- The `ViewManager` state: the camera, the projection toggle
`bOrthographicProjection`, the scroll-adjusted `gMovementSpeed`, the frame
timing globals and the window-close flag. -/
structure ViewState where
  camera : CameraState
  orthographicProjection : Bool
  movementSpeed : ℚ
  deltaTime : ℚ
  lastFrame : ℚ
  windowShouldClose : Bool
deriving DecidableEq

/-- Initial value of `gMovementSpeed` (`= 2.5f` at its declaration). -/
def initialMovementSpeed : ℚ := 2.5

/-- `ViewManager::Mouse_Scroll_Callback` acting on `gMovementSpeed`:
scroll up adds `0.5`, scroll down subtracts `0.5` but clamps at `0.5`
via `std::max`, a zero offset leaves the speed unchanged.  The horizontal
offset parameter is unused, as in the source. -/
def mouseScrollCallback (_xOffset yOffset : ℚ) (speed : ℚ) : ℚ :=
  if 0 < yOffset then speed + 0.5
  else if yOffset < 0 then max 0.5 (speed - 0.5)
  else speed

/-- Camera preset installed when P is pressed (perspective view). -/
def perspectiveCameraPreset : CameraState :=
  { position := (0, 5.5, 8), front := (0, -0.5, -2), up := (0, 1, 0), zoom := 80 }

/-- Camera preset installed when O is pressed (orthographic view). -/
def orthographicCameraPreset : CameraState :=
  { position := (0, 5, 10), front := (0, 0, -1), up := (0, 1, 0), zoom := 1 }

/-- `ViewManager::ProcessKeyboardEvents`, with the external
`Camera::ProcessKeyboard` supplied as `move`.  Escape marks the window
for closing; W/S/A/D/Q/E move the camera with velocity
`gDeltaTime * gMovementSpeed`; P selects perspective projection and
installs its camera preset; O (checked after P) selects orthographic
projection and installs its preset. -/
def processKeyboardEvents (move : CameraMoveFn) (keys : KeyState)
    (vs : ViewState) : ViewState :=
  let vs0 := if keys.escape then { vs with windowShouldClose := true } else vs
  let velocity := vs0.deltaTime * vs0.movementSpeed
  let cam := vs0.camera
  let cam := if keys.w then move .forward velocity cam else cam
  let cam := if keys.s then move .backward velocity cam else cam
  let cam := if keys.a then move .leftward velocity cam else cam
  let cam := if keys.d then move .rightward velocity cam else cam
  let cam := if keys.q then move .upward velocity cam else cam
  let cam := if keys.e then move .downward velocity cam else cam
  let vs1 := { vs0 with camera := cam }
  let vs2 :=
    if keys.p then
      { vs1 with orthographicProjection := false, camera := perspectiveCameraPreset }
    else vs1
  if keys.o then
    { vs2 with orthographicProjection := true, camera := orthographicCameraPreset }
  else vs2

/-- The window dimensions (`WINDOW_WIDTH`, `WINDOW_HEIGHT`). -/
def windowWidth : ℚ := 1000

/-- Window height constant. -/
def windowHeight : ℚ := 800

/-- The projection matrix request `PrepareSceneView` hands to GLM: either
`glm::perspective(fov, aspect, near, far)` (fov already in radians) or
`glm::ortho(left, right, bottom, top, near, far)`. -/
inductive ProjSpec where
  | perspective (fovRadians : ℝ) (aspect : ℝ) (near : ℝ) (far : ℝ)
  | ortho (left : ℝ) (right : ℝ) (bottom : ℝ) (top : ℝ) (near : ℝ) (far : ℝ)

/-- `ViewManager::PrepareSceneView`: update the frame timing from the
current time, process keyboard input, then build the projection — a
perspective matrix from the camera zoom (converted to radians) and the
window aspect ratio, or an orthographic box of half-extent 5 widened by
the aspect ratio when the window is wider than tall.  Returns the updated
view state together with the projection request. -/
noncomputable def prepareSceneView (move : CameraMoveFn) (keys : KeyState)
    (currentFrame : ℚ) (vs : ViewState) : ViewState × ProjSpec :=
  let vsT := { vs with deltaTime := currentFrame - vs.lastFrame, lastFrame := currentFrame }
  let vs1 := processKeyboardEvents move keys vsT
  let projection :=
    if !vs1.orthographicProjection then
      ProjSpec.perspective (glmRadians ((vs1.camera.zoom : ℚ) : ℝ))
        ((windowWidth : ℝ) / (windowHeight : ℝ)) 0.1 100
    else
      let orthoSize : ℚ := 5
      let aspectRatio : ℚ := windowWidth / windowHeight
      if 1 ≤ aspectRatio then
        ProjSpec.ortho (-((orthoSize * aspectRatio : ℚ) : ℝ))
          (((orthoSize * aspectRatio : ℚ) : ℝ))
          (-((orthoSize : ℚ) : ℝ)) (((orthoSize : ℚ) : ℝ)) 0.1 100
      else
        ProjSpec.ortho (-((orthoSize : ℚ) : ℝ)) (((orthoSize : ℚ) : ℝ))
          (-((orthoSize / aspectRatio : ℚ) : ℝ))
          (((orthoSize / aspectRatio : ℚ) : ℝ)) 0.1 100
  (vs1, projection)

/-- The operations a run can perform on the `SceneManager` state. -/
inductive SceneOp where
  | createTexture (image : Option ImageData) (tag : String)
  | bindTextures
  | destroyTextures
  | lookupTextureID (tag : String)
  | lookupTextureSlot (tag : String)
  | lookupMaterial (tag : String)
  | render

/-- One step of the `SceneManager` state machine.  The three lookups are
pure and leave the state unchanged. -/
noncomputable def sceneStep (op : SceneOp) (st : SceneState) : SceneState :=
  match op with
  | .createTexture image tag => (createGLTexture image tag st).2
  | .bindTextures => bindGLTextures st
  | .destroyTextures => destroyGLTextures st
  | .lookupTextureID _ => st
  | .lookupTextureSlot _ => st
  | .lookupMaterial _ => st
  | .render => renderScene st

/-- Run a sequence of `SceneManager` operations. -/
noncomputable def runScene (ops : List SceneOp) (st : SceneState) : SceneState :=
  ops.foldl (fun s op => sceneStep op s) st

/-- The scene-manager state right after construction: a shader manager is
attached, no textures are registered, no materials are defined. -/
def initialSceneState : SceneState :=
  { shader := some {}
    textureIDs := fun _ => { ID := 0, tag := "" }
    loadedTextures := 0
    objectMaterials := []
    gl := { nextTextureID := 1, textureUnits := fun _ => 0 } }

/-- A concrete state with one registered texture, used to instantiate
the hypotheses of several theorems. -/
def demoRegistryState : SceneState :=
  { shader := some {}
    textureIDs := Function.update (fun _ => { ID := 0, tag := "" }) 0 { ID := 7, tag := "floor" }
    loadedTextures := 1
    objectMaterials := []
    gl := { nextTextureID := 8, textureUnits := fun _ => 0 } }

/-- Modelled from the spec: the model matrix is the composition
`Translate · RotateX · RotateY · RotateZ · Scale` applied to the
per-object scale, degree rotations (converted to radians) and position. -/
noncomputable def specModelMatrix (scaleXYZ : Vec3) (rx ry rz : ℚ)
    (positionXYZ : Vec3) : Mat4 :=
  glmTranslateMat positionXYZ *
    glmRotateXMat (glmRadians (rx : ℝ)) *
    glmRotateYMat (glmRadians (ry : ℝ)) *
    glmRotateZMat (glmRadians (rz : ℝ)) *
    glmScaleMat scaleXYZ

/-- An interleaving of `SetShaderColor` and `SetShaderTexture` calls. -/
inductive ColorTextureOp where
  | colorCall (r g b a : ℚ)
  | textureCall (tag : String)
deriving DecidableEq

/-- Apply one call of an interleaving to the scene state. -/
def applyColorTextureOp (op : ColorTextureOp) (st : SceneState) : SceneState :=
  match op with
  | .colorCall r g b a => setShaderColor r g b a st
  | .textureCall tag => setShaderTexture tag st

/-- The draw mode a call selects: texture (`true`) or color (`false`). -/
def usesTexture : ColorTextureOp → Bool
  | .colorCall .. => false
  | .textureCall _ => true

theorem applyColorTextureOp_shader_isSome (op : ColorTextureOp) (st : SceneState) :
    (applyColorTextureOp op st).shader.isSome = st.shader.isSome := by
  cases op <;> cases h : st.shader <;>
    simp [applyColorTextureOp, setShaderColor, setShaderTexture, h]

theorem scrollSpeed_step_lower_bound (x y s : ℚ) (h : 0.5 ≤ s) :
    0.5 ≤ mouseScrollCallback x y s := by
  unfold mouseScrollCallback
  split
  · linarith
  · split
    · exact le_max_left _ _
    · exact h

theorem scrollSpeed_fold_lower_bound (events : List (ℚ × ℚ)) :
    ∀ s : ℚ, 0.5 ≤ s →
      0.5 ≤ events.foldl (fun t e => mouseScrollCallback e.1 e.2 t) s := by
  induction events with
  | nil => intro s hs; exact hs
  | cons e rest ih =>
    intro s hs
    exact ih _ (scrollSpeed_step_lower_bound e.1 e.2 s hs)

/-- C3: the camera movement speed never drops below 0.5: starting from the
initial value 2.5, after any finite sequence of scroll-callback invocations
with arbitrary offsets, `gMovementSpeed` is at least 0.5. -/
theorem C3_movementSpeed_never_below_half :
    initialMovementSpeed = 2.5 ∧
    ∀ events : List (ℚ × ℚ),
      0.5 ≤ events.foldl (fun s e => mouseScrollCallback e.1 e.2 s)
        initialMovementSpeed := by
  refine ⟨rfl, fun events => ?_⟩
  exact scrollSpeed_fold_lower_bound events initialMovementSpeed (by norm_num [initialMovementSpeed])

/-- C1: the claim that `FindMaterial` returns false for an unknown tag
fails on the code.  With the six materials installed by
`DefineObjectMaterials` — none of which is tagged `"nonexistent"` — the
lookup of `"nonexistent"` returns `true` and leaves the out-parameter at
its previous (uninitialized) contents: after the search loop ends with
`bFound == false`, the function unconditionally executes `return(true)`.
Its caller `SetShaderMaterial` guards the use of the out-parameter with
`if (bReturn == true)`, so the intended contract is clearly
false-on-missing. -/
theorem C1_findMaterial_unknown_tag_returns_true :
    (defineObjectMaterials initialSceneState).objectMaterials.length = 6 ∧
    ((defineObjectMaterials initialSceneState).objectMaterials.all
      (fun m => m.tag != "nonexistent")) = true ∧
    findMaterial "nonexistent" uninitializedMaterial
      (defineObjectMaterials initialSceneState) = (true, uninitializedMaterial) := by
  refine ⟨rfl, rfl, ?_⟩
  rfl

/-- C6: the stacked-books generator loop executes exactly 5 iterations,
drawing one box per iteration at Z = -1.2 with Y starting at 2.8 and
rising by 0.10 each iteration; it binds texture "Books" for i = 0..3 and
"Book5" for i = 4, material "wood" for even i and "clay" for odd i, and
after each draw the even/odd ternaries adjust rotation and scale
(even: yRot += 4.23, xScale += 0.13, zScale += 0.12;
odd: yRot -= 1.03, xScale -= 0.15, zScale -= 0.10). -/
theorem C6_bookGeneratorLoop :
    (bookDraws.length = 5 ∧
     bookDraws.map (fun d => d.positionXYZ) =
       [(-2.5, 2.8, -1.2), (-2.5, 2.9, -1.2), (-2.5, 3.0, -1.2),
        (-2.5, 3.1, -1.2), (-2.5, 3.2, -1.2)] ∧
     bookDraws.map (fun d => d.texture) =
       ["Books", "Books", "Books", "Books", "Book5"] ∧
     bookDraws.map (fun d => d.material) =
       ["wood", "clay", "wood", "clay", "wood"] ∧
     bookDraws.map (fun d => d.rotationXYZ) =
       [(0, 10, 0), (0, 14.23, 0), (0, 13.20, 0), (0, 17.43, 0), (0, 16.40, 0)] ∧
     bookDraws.map (fun d => d.scaleXYZ) =
       [(0.7, 0.1, 0.9), (0.83, 0.1, 1.02), (0.68, 0.1, 0.92),
        (0.81, 0.1, 1.04), (0.66, 0.1, 0.94)]) ∧
    ∀ (b : BookState) (i : Nat),
      (bookStep b i).2.yPos = b.yPos + 0.10 ∧
      (bookStep b i).2.yRot = (if i % 2 = 0 then b.yRot + 4.23 else b.yRot - 1.03) ∧
      (bookStep b i).2.xScale = (if i % 2 = 0 then b.xScale + 0.13 else b.xScale - 0.15) ∧
      (bookStep b i).2.zScale = (if i % 2 = 0 then b.zScale + 0.12 else b.zScale - 0.10) ∧
      (bookStep b i).1.positionXYZ = (b.xPos, b.yPos, -1.2) ∧
      (bookStep b i).1.texture = (if i = 4 then "Book5" else "Books") ∧
      (bookStep b i).1.material = (if i % 2 = 0 then "wood" else "clay") := by
  constructor
  · norm_num [bookDraws, bookLoop, bookStep, bookInit, List.range_succ]
  · intro b i
    exact ⟨rfl, rfl, rfl, rfl, rfl, rfl, rfl⟩

/-- C2: for every scale vector, rotation angles (degrees) and position,
`SetTransformations` sets the shader `"model"` uniform to the product
`Translate(position) * RotateX(rx) * RotateY(ry) * RotateZ(rz) * Scale(scale)`,
each angle converted from degrees to radians, the axis rotations composed
in the fixed X-then-Y-then-Z order. -/
theorem C2_setTransformations_model (scaleXYZ : Vec3) (rx ry rz : ℚ)
    (positionXYZ : Vec3) (st : SceneState) (sh : ShaderState)
    (h : st.shader = some sh) :
    (setTransformations scaleXYZ rx ry rz positionXYZ st).shader =
      some { sh with
             model := some (specModelMatrix scaleXYZ rx ry rz positionXYZ) } := by
  simp [setTransformations, h, setTransformationsMatrix, specModelMatrix]

/-- Witness for C2 at a concrete input. -/
theorem C2_setTransformations_model_witness :
    (setTransformations (1, 1, 1) 30 45 60 (2, 3, 4) initialSceneState).shader =
      some { ({} : ShaderState) with
             model := some (specModelMatrix (1, 1, 1) 30 45 60 (2, 3, 4)) } :=
  C2_setTransformations_model (1, 1, 1) 30 45 60 (2, 3, 4) initialSceneState {} rfl

/-- C8: every `SetShaderColor` call sets the uniform `bUseTexture` to
false together with the color, every `SetShaderTexture` call sets it to
true together with the sampler slot, and after any non-empty interleaving
of the two the draw mode equals that of the most recent call. -/
theorem C8_shader_mode_last_call :
    (∀ (r g b a : ℚ) (st : SceneState) (sh : ShaderState), st.shader = some sh →
       (setShaderColor r g b a st).shader =
         some { sh with bUseTexture := some false, objectColor := some (r, g, b, a) }) ∧
    (∀ (tag : String) (st : SceneState) (sh : ShaderState), st.shader = some sh →
       (setShaderTexture tag st).shader =
         some { sh with bUseTexture := some true,
                        objectTexture := some (findTextureSlot st tag) }) ∧
    (∀ (ops : List ColorTextureOp) (st : SceneState) (lastOp : ColorTextureOp),
       st.shader.isSome = true → ops.getLast? = some lastOp →
       ∃ sh', (ops.foldl (fun s op => applyColorTextureOp op s) st).shader = some sh' ∧
         sh'.bUseTexture = some (usesTexture lastOp)) := by
  refine ⟨?_, ?_, ?_⟩
  · intro r g b a st sh h
    simp [setShaderColor, h]
  · intro tag st sh h
    simp [setShaderTexture, h]
  · intro ops
    induction ops with
    | nil => intro st lastOp _ hlast; simp at hlast
    | cons op rest ih =>
      intro st lastOp hsome hlast
      cases rest with
      | nil =>
        obtain ⟨sh, hsh⟩ := Option.isSome_iff_exists.mp hsome
        simp only [List.getLast?_singleton, Option.some.injEq] at hlast
        subst hlast
        cases op with
        | colorCall r g b a =>
          exact ⟨{ sh with bUseTexture := some false, objectColor := some (r, g, b, a) },
                 by simp [applyColorTextureOp, setShaderColor, hsh], rfl⟩
        | textureCall tag =>
          exact ⟨{ sh with bUseTexture := some true,
                           objectTexture := some (findTextureSlot st tag) },
                 by simp [applyColorTextureOp, setShaderTexture, hsh], rfl⟩
      | cons op2 rest2 =>
        rw [List.getLast?_cons_cons] at hlast
        have hsome2 : (applyColorTextureOp op st).shader.isSome = true := by
          rw [applyColorTextureOp_shader_isSome]; exact hsome
        simpa using ih (applyColorTextureOp op st) lastOp hsome2 hlast

/-- Witness for C8 at a concrete interleaving ending in a texture call. -/
theorem C8_shader_mode_last_call_witness :
    ∃ sh',
      (([ColorTextureOp.colorCall 1 1 1 1,
         ColorTextureOp.textureCall "ghost"]).foldl
           (fun s op => applyColorTextureOp op s) initialSceneState).shader =
        some sh' ∧
      sh'.bUseTexture = some true :=
  C8_shader_mode_last_call.2.2
    [ColorTextureOp.colorCall 1 1 1 1, ColorTextureOp.textureCall "ghost"]
    initialSceneState (ColorTextureOp.textureCall "ghost") rfl (by simp)

/-- C9: `SetShaderTexture` with a tag absent from the texture registry
still enables texturing — `bUseTexture` becomes true — and passes the
not-found sentinel `-1` of `FindTextureSlot` to the sampler uniform. -/
theorem C9_setShaderTexture_unknown_tag (tag : String) (st : SceneState)
    (sh : ShaderState) (hsh : st.shader = some sh)
    (habsent : ∀ i, i < st.loadedTextures → (st.textureIDs i).tag ≠ tag) :
    findTextureSlot st tag = -1 ∧
    (setShaderTexture tag st).shader =
      some { sh with bUseTexture := some true, objectTexture := some (-1) } := by
  have hfind : findFirstTextureIndex st tag = none := by
    rw [findFirstTextureIndex, List.find?_eq_none]
    intro i hi
    simp only [List.mem_range] at hi
    simp [habsent i hi]
  have hslot : findTextureSlot st tag = -1 := by
    simp [findTextureSlot, hfind]
  exact ⟨hslot, by simp [setShaderTexture, hsh, hslot]⟩

/-- Witness for C9 on the empty registry. -/
theorem C9_setShaderTexture_unknown_tag_witness :
    findTextureSlot initialSceneState "ghost" = -1 ∧
    (setShaderTexture "ghost" initialSceneState).shader =
      some { ({} : ShaderState) with
             bUseTexture := some true, objectTexture := some (-1) } :=
  C9_setShaderTexture_unknown_tag "ghost" initialSceneState {} rfl
    (fun i hi => absurd hi (Nat.not_lt_zero i))

theorem destroyTexturesLoop_eq (n : Nat) (t : Nat → TextureEntry) (gl : GLState) :
    destroyTexturesLoop n t gl =
      (fun i => if i < n then { t i with ID := gl.nextTextureID + i } else t i,
       { gl with nextTextureID := gl.nextTextureID + n }) := by
  induction n with
  | zero =>
    rw [Prod.ext_iff]
    constructor
    · funext i
      simp [destroyTexturesLoop]
    · simp [destroyTexturesLoop]
  | succ n ih =>
    unfold destroyTexturesLoop at ih ⊢
    rw [List.range_succ, List.foldl_append, ih]
    simp only [List.foldl_cons, List.foldl_nil]
    rw [Prod.ext_iff]
    constructor
    · funext i
      rcases Nat.lt_trichotomy i n with hlt | heq | hgt
      · have h1 : i ≠ n := Nat.ne_of_lt hlt
        simp [Function.update_apply, h1, hlt, Nat.lt_succ_of_lt hlt]
      · subst heq
        simp [Function.update_apply, glGenTextures, Nat.lt_irrefl]
      · have h1 : i ≠ n := (Nat.ne_of_lt hgt).symm
        have h2 : ¬ i < n := Nat.not_lt.mpr (Nat.le_of_lt hgt)
        have h3 : ¬ i < n + 1 := Nat.not_lt.mpr hgt
        simp [Function.update_apply, h1, h2, h3]
    · simp [glGenTextures, Nat.add_assoc]

/-- C10: `DestroyGLTextures` leaves the counter `m_loadedTextures`, every
stored tag, and the material list unchanged; for each of the first
`m_loadedTextures` entries it overwrites the stored ID with a freshly
generated texture name (the i-th entry receives the i-th name handed out
by `glGenTextures`), and entries beyond the counter are untouched — no
entry is freed or removed. -/
theorem C10_destroyGLTextures_regenerates (st : SceneState) :
    (destroyGLTextures st).loadedTextures = st.loadedTextures ∧
    (∀ i, ((destroyGLTextures st).textureIDs i).tag = (st.textureIDs i).tag) ∧
    (∀ i, i < st.loadedTextures →
      ((destroyGLTextures st).textureIDs i).ID = st.gl.nextTextureID + i) ∧
    (∀ i, st.loadedTextures ≤ i →
      (destroyGLTextures st).textureIDs i = st.textureIDs i) ∧
    (destroyGLTextures st).objectMaterials = st.objectMaterials := by
  unfold destroyGLTextures
  rw [destroyTexturesLoop_eq]
  refine ⟨rfl, ?_, ?_, ?_, rfl⟩
  · intro i
    by_cases h : i < st.loadedTextures <;> simp [h]
  · intro i hi
    simp [hi]
  · intro i hi
    simp [Nat.not_lt.mpr hi]

/-- Witness for C10 on a registry with one entry. -/
theorem C10_destroyGLTextures_regenerates_witness :
    ((destroyGLTextures demoRegistryState).textureIDs 0).ID =
      demoRegistryState.gl.nextTextureID + 0 :=
  (C10_destroyGLTextures_regenerates demoRegistryState).2.2.1 0 (by decide)

/-- C5: `CreateGLTexture` returns false exactly when the image cannot be
decoded or the decoded image has a channel count other than 3 or 4; every
false return leaves the texture registry (array and counter) unchanged;
a true return appends exactly one entry — the freshly generated ID with
the given tag — and increments the counter; and `LoadSceneTextures`
discards every boolean result, threading only the state. -/
theorem C5_createGLTexture_failure_contract (image : Option ImageData)
    (tag : String) (st : SceneState) :
    ((createGLTexture image tag st).1 = false ↔
       image = none ∨ ∃ img, image = some img ∧
         img.colorChannels ≠ 3 ∧ img.colorChannels ≠ 4) ∧
    ((createGLTexture image tag st).1 = false →
       (createGLTexture image tag st).2.textureIDs = st.textureIDs ∧
       (createGLTexture image tag st).2.loadedTextures = st.loadedTextures) ∧
    ((createGLTexture image tag st).1 = true →
       (createGLTexture image tag st).2.loadedTextures = st.loadedTextures + 1 ∧
       (createGLTexture image tag st).2.textureIDs st.loadedTextures =
         { ID := st.gl.nextTextureID, tag := tag } ∧
       ∀ i, i ≠ st.loadedTextures →
         (createGLTexture image tag st).2.textureIDs i = st.textureIDs i) ∧
    (∀ decode : String → Option ImageData, ∀ s : SceneState,
       loadSceneTextures decode s =
         bindGLTextures (sceneTextureFiles.foldl
           (fun acc file => (createGLTexture (decode file.1) file.2 acc).2) s)) := by
  refine ⟨?_, ?_, ?_, fun decode s => rfl⟩
  · cases image with
    | none => simp [createGLTexture]
    | some img =>
      by_cases hch : img.colorChannels = 3 ∨ img.colorChannels = 4
      · simp [createGLTexture, hch]
        tauto
      · simp [createGLTexture, hch]
        tauto
  · intro hfalse
    cases image with
    | none => exact ⟨rfl, rfl⟩
    | some img =>
      by_cases hch : img.colorChannels = 3 ∨ img.colorChannels = 4
      · simp [createGLTexture, hch] at hfalse
      · simp [createGLTexture, hch]
  · intro htrue
    cases image with
    | none => simp [createGLTexture] at htrue
    | some img =>
      by_cases hch : img.colorChannels = 3 ∨ img.colorChannels = 4
      · refine ⟨?_, ?_, ?_⟩
        · simp [createGLTexture, hch]
        · simp [createGLTexture, hch, glGenTextures, Function.update_apply]
        · intro i hi
          simp [createGLTexture, hch, Function.update_apply, hi]
      · simp [createGLTexture, hch] at htrue

/-- Witness for C5: a 3-channel image loads successfully and the counter
rises by one. -/
theorem C5_createGLTexture_failure_contract_witness :
    (createGLTexture (some { width := 4, height := 4, colorChannels := 3 })
      "floor" initialSceneState).2.loadedTextures =
      initialSceneState.loadedTextures + 1 :=
  ((C5_createGLTexture_failure_contract
      (some { width := 4, height := 4, colorChannels := 3 })
      "floor" initialSceneState).2.2.1 (by decide)).1

theorem destroyGLTextures_registry (st : SceneState) :
    (destroyGLTextures st).loadedTextures = st.loadedTextures ∧
    ∀ i, ((destroyGLTextures st).textureIDs i).tag = (st.textureIDs i).tag := by
  unfold destroyGLTextures
  rw [destroyTexturesLoop_eq]
  refine ⟨rfl, ?_⟩
  intro i
  by_cases h : i < st.loadedTextures <;> simp [h]

theorem setShaderMaterial_registry (tag : String) (st : SceneState) :
    (setShaderMaterial tag st).textureIDs = st.textureIDs ∧
    (setShaderMaterial tag st).loadedTextures = st.loadedTextures := by
  unfold setShaderMaterial
  by_cases h1 : 0 < st.objectMaterials.length
  · by_cases h2 : (findMaterial tag uninitializedMaterial st).1 = true
    · cases h : st.shader <;> simp [h1, h2, h]
    · simp [h1, h2]
  · simp [h1]

theorem applyRenderCall_registry (c : RenderCall) (st : SceneState) :
    (applyRenderCall c st).textureIDs = st.textureIDs ∧
    (applyRenderCall c st).loadedTextures = st.loadedTextures := by
  cases c with
  | transform s xr yr zr p =>
    cases h : st.shader <;> simp [applyRenderCall, setTransformations, h]
  | color r g b a =>
    cases h : st.shader <;> simp [applyRenderCall, setShaderColor, h]
  | texture tag =>
    cases h : st.shader <;> simp [applyRenderCall, setShaderTexture, h]
  | material tag =>
    exact setShaderMaterial_registry tag st
  | draw mesh => exact ⟨rfl, rfl⟩

theorem renderScene_registry (st : SceneState) :
    (renderScene st).textureIDs = st.textureIDs ∧
    (renderScene st).loadedTextures = st.loadedTextures := by
  unfold renderScene
  generalize renderSceneCalls = l
  induction l generalizing st with
  | nil => exact ⟨rfl, rfl⟩
  | cons c rest ih =>
    simp only [List.foldl_cons]
    obtain ⟨h1, h2⟩ := ih (applyRenderCall c st)
    obtain ⟨g1, g2⟩ := applyRenderCall_registry c st
    exact ⟨h1.trans g1, h2.trans g2⟩

theorem sceneStep_registry (op : SceneOp) (st : SceneState) :
    st.loadedTextures ≤ (sceneStep op st).loadedTextures ∧
    ∀ i, i < st.loadedTextures →
      ((sceneStep op st).textureIDs i).tag = (st.textureIDs i).tag := by
  cases op with
  | createTexture image tag =>
    cases image with
    | none => exact ⟨le_refl _, fun i _ => rfl⟩
    | some img =>
      by_cases hch : img.colorChannels = 3 ∨ img.colorChannels = 4
      · refine ⟨?_, ?_⟩
        · simp [sceneStep, createGLTexture, hch]
        · intro i hi
          simp [sceneStep, createGLTexture, hch, Function.update_apply,
            Nat.ne_of_lt hi]
      · exact ⟨by simp [sceneStep, createGLTexture, hch], fun i _ => by
          simp [sceneStep, createGLTexture, hch]⟩
  | bindTextures => exact ⟨le_refl _, fun i _ => rfl⟩
  | destroyTextures =>
    have h := destroyGLTextures_registry st
    exact ⟨le_of_eq h.1.symm, fun i _ => h.2 i⟩
  | lookupTextureID tag => exact ⟨le_refl _, fun i _ => rfl⟩
  | lookupTextureSlot tag => exact ⟨le_refl _, fun i _ => rfl⟩
  | lookupMaterial tag => exact ⟨le_refl _, fun i _ => rfl⟩
  | render =>
    obtain ⟨h1, h2⟩ := renderScene_registry st
    exact ⟨le_of_eq h2.symm, fun i _ => by simp only [sceneStep]; rw [h1]⟩

theorem runScene_registry (ops : List SceneOp) :
    ∀ st : SceneState,
      st.loadedTextures ≤ (runScene ops st).loadedTextures ∧
      ∀ i, i < st.loadedTextures →
        ((runScene ops st).textureIDs i).tag = (st.textureIDs i).tag := by
  induction ops with
  | nil => intro st; exact ⟨le_refl _, fun i _ => rfl⟩
  | cons op rest ih =>
    intro st
    simp only [runScene, List.foldl_cons]
    obtain ⟨h1, h2⟩ := sceneStep_registry op st
    obtain ⟨g1, g2⟩ := ih (sceneStep op st)
    simp only [runScene] at g1 g2
    refine ⟨le_trans h1 g1, fun i hi => ?_⟩
    rw [g2 i (lt_of_lt_of_le hi h1), h2 i hi]

/-- C7: texture registry entries are never removed within a run.  Across
any sequence of `SceneManager` operations the counter `m_loadedTextures`
never decreases and the tag of every already-registered entry is
preserved; moreover a single step changes the counter only when it is a
successful `CreateGLTexture`, which appends exactly one new entry at the
end and leaves every other slot untouched. -/
theorem C7_registry_append_only :
    (∀ (ops : List SceneOp) (st : SceneState),
       st.loadedTextures ≤ (runScene ops st).loadedTextures ∧
       ∀ i, i < st.loadedTextures →
         ((runScene ops st).textureIDs i).tag = (st.textureIDs i).tag) ∧
    (∀ (op : SceneOp) (st : SceneState),
       (sceneStep op st).loadedTextures = st.loadedTextures ∨
       ∃ image tag, op = SceneOp.createTexture image tag ∧
         (createGLTexture image tag st).1 = true ∧
         (sceneStep op st).loadedTextures = st.loadedTextures + 1 ∧
         (sceneStep op st).textureIDs st.loadedTextures =
           { ID := st.gl.nextTextureID, tag := tag } ∧
         ∀ i, i ≠ st.loadedTextures →
           (sceneStep op st).textureIDs i = st.textureIDs i) := by
  refine ⟨fun ops st => runScene_registry ops st, ?_⟩
  intro op st
  cases op with
  | createTexture image tag =>
    cases image with
    | none => exact Or.inl rfl
    | some img =>
      by_cases hch : img.colorChannels = 3 ∨ img.colorChannels = 4
      · refine Or.inr ⟨some img, tag, rfl, ?_, ?_, ?_, ?_⟩
        · simp [createGLTexture, hch]
        · simp [sceneStep, createGLTexture, hch]
        · simp [sceneStep, createGLTexture, hch, glGenTextures,
            Function.update_apply]
        · intro i hi
          simp [sceneStep, createGLTexture, hch, Function.update_apply, hi]
      · exact Or.inl (by simp [sceneStep, createGLTexture, hch])
  | bindTextures => exact Or.inl rfl
  | destroyTextures => exact Or.inl (destroyGLTextures_registry st).1
  | lookupTextureID tag => exact Or.inl rfl
  | lookupTextureSlot tag => exact Or.inl rfl
  | lookupMaterial tag => exact Or.inl rfl
  | render => exact Or.inl (renderScene_registry st).2

/-- Witness for C7: destroying and rebinding never loses the registered
tag. -/
theorem C7_registry_append_only_witness :
    ((runScene [SceneOp.destroyTextures, SceneOp.bindTextures]
        demoRegistryState).textureIDs 0).tag =
      (demoRegistryState.textureIDs 0).tag :=
  (C7_registry_append_only.1 [SceneOp.destroyTextures, SceneOp.bindTextures]
    demoRegistryState).2 0 (by decide)

/-- The view-manager state right after construction (camera defaults set
in the `ViewManager` constructor, perspective projection, movement speed
2.5, zeroed frame timing). -/
def initialViewState : ViewState :=
  { camera := perspectiveCameraPreset
    orthographicProjection := false
    movementSpeed := initialMovementSpeed
    deltaTime := 0
    lastFrame := 0
    windowShouldClose := false }

/-- C4: pressing P (whatever the prior camera state) selects perspective
projection and sets the camera exactly to Position (0, 5.5, 8),
Front (0, -0.5, -2), Up (0, 1, 0), Zoom 80, and `PrepareSceneView` builds
a perspective matrix with fov `radians(80)`, aspect 1000/800, near 0.1
and far 100; pressing O selects orthographic projection, sets the camera
exactly to Position (0, 5, 10), Front (0, 0, -1), Up (0, 1, 0), Zoom 1,
and `PrepareSceneView` builds an orthographic box of half-extent 5 scaled
horizontally by the aspect ratio, near 0.1, far 100. -/
theorem C4_projection_presets (move : CameraMoveFn) (keys : KeyState)
    (currentFrame : ℚ) (vs : ViewState) :
    (keys.p = true → keys.o = false →
       (prepareSceneView move keys currentFrame vs).1.camera = perspectiveCameraPreset ∧
       (prepareSceneView move keys currentFrame vs).1.orthographicProjection = false ∧
       (prepareSceneView move keys currentFrame vs).2 =
         ProjSpec.perspective (glmRadians 80) ((1000 : ℝ) / 800) 0.1 100) ∧
    (keys.o = true →
       (prepareSceneView move keys currentFrame vs).1.camera = orthographicCameraPreset ∧
       (prepareSceneView move keys currentFrame vs).1.orthographicProjection = true ∧
       (prepareSceneView move keys currentFrame vs).2 =
         ProjSpec.ortho (-(5 * ((1000 : ℝ) / 800))) (5 * ((1000 : ℝ) / 800))
           (-5) 5 0.1 100) := by
  constructor
  · intro hp ho
    refine ⟨?_, ?_, ?_⟩ <;>
      simp [prepareSceneView, processKeyboardEvents, hp, ho,
        perspectiveCameraPreset, glmRadians, windowWidth, windowHeight]
  · intro ho
    refine ⟨?_, ?_, ?_⟩ <;>
      simp [prepareSceneView, processKeyboardEvents, ho,
        orthographicCameraPreset, windowWidth, windowHeight,
        show (1 : ℚ) ≤ 1000 / 800 by norm_num]

/-- Witness for C4: pressing P alone from the initial view state. -/
theorem C4_projection_presets_witness :
    ((prepareSceneView (fun _ _ c => c) { p := true } 0 initialViewState).1.camera =
        perspectiveCameraPreset ∧
     (prepareSceneView (fun _ _ c => c) { p := true } 0 initialViewState).1.orthographicProjection =
        false ∧
     (prepareSceneView (fun _ _ c => c) { p := true } 0 initialViewState).2 =
        ProjSpec.perspective (glmRadians 80) ((1000 : ℝ) / 800) 0.1 100) :=
  (C4_projection_presets (fun _ _ c => c) { p := true } 0 initialViewState).1 rfl rfl

end CS330
